import Mathlib

/-!
# Shallow embedding of `src/Kalman/kalman_factory_filter.h`

The source is a C preprocessor "factory" header: given the three macros
`KALMAN_NAME`, `KALMAN_NUM_STATES` and `KALMAN_NUM_INPUTS`, its inclusion
validates the dimensions (lines 64-78), derives the per-matrix row/column
constants (lines 84-100), mangles the instance name into a family of
identifiers (lines 113-125), declares the storage buffers and the filter
structure (lines 135-181) and emits a parameterless init function whose
body is a single call to `kalman_filter_initialize` (lines 188-191).

The embedding below models one inclusion of that header as a pure function
`generate` from the macro environment (each of the three parameters either
defined or not) to either a build error (`#error`, which halts the build)
or the generated artifacts: the six buffer declarations (the input-side
ones optional), the aggregate structure's identifier, and the generated
init function with its single delegation call.
-/

/-- A value supplied for one of the two numeric parameters
(`KALMAN_NUM_STATES` / `KALMAN_NUM_INPUTS`): either an integer literal, or
some other token (e.g. an identifier that expands to nothing numeric). -/
inductive PPValue where
  | int (v : Int)
  | token (s : String)
deriving DecidableEq

/-- The value a parameter contributes to a preprocessor conditional
(`#if` / `#elif`): an integer literal stands for itself; any remaining
non-integer token evaluates as 0 (C11 6.10.1p4). -/
def PPValue.condValue : PPValue → Int
  | .int v => v
  | .token _ => 0

/-- The macro environment at the point the factory header is included:
each of the three required parameters is either defined or absent. -/
structure FactoryConfig where
  KALMAN_NAME : Option String
  KALMAN_NUM_STATES : Option PPValue
  KALMAN_NUM_INPUTS : Option PPValue
deriving DecidableEq

/-- The `#error` directives of lines 64-78, in source order. -/
inductive FactoryError where
  | nameUndefined
  | numStatesUndefined
  | numStatesNotPositive
  | numInputsUndefined
  | numInputsNegative
deriving DecidableEq

/-- The message text of each `#error` directive (lines 65, 69, 71, 75, 77). -/
def FactoryError.message : FactoryError → String
  | .nameUndefined =>
      "KALMAN_NAME needs to be defined prior to inclusion of this file."
  | .numStatesUndefined =>
      "KALMAN_NUM_STATES needs to be defined prior to inclusion of this file."
  | .numStatesNotPositive =>
      "KALMAN_NUM_STATES must be a positive integer"
  | .numInputsUndefined =>
      "KALMAN_NUM_INPUTS needs to be defined prior to inclusion of this file."
  | .numInputsNegative =>
      "KALMAN_NUM_INPUTS must be a positive integer or zero if no inputs are used"

/-! ## Dimension constants (lines 84-100) -/

def __KALMAN_A_ROWS (numStates : Int) : Int := numStates

def __KALMAN_A_COLS (numStates : Int) : Int := numStates

def __KALMAN_P_ROWS (numStates : Int) : Int := numStates

def __KALMAN_P_COLS (numStates : Int) : Int := numStates

def __KALMAN_x_ROWS (numStates : Int) : Int := numStates

def __KALMAN_x_COLS : Int := 1

def __KALMAN_B_ROWS (numStates : Int) : Int := numStates

def __KALMAN_B_COLS (numInputs : Int) : Int := numInputs

def __KALMAN_u_ROWS (numInputs : Int) : Int := numInputs

def __KALMAN_u_COLS : Int := 1

def __KALMAN_Q_ROWS (numInputs : Int) : Int := numInputs

def __KALMAN_Q_COLS (numInputs : Int) : Int := numInputs

/-! ## Name mangling (lines 113-125): token pasting is string concatenation -/

def __CONCAT (x y : String) : String := x ++ y

def KALMAN_FILTER_BASENAME_HELPER (name : String) : String :=
  __CONCAT "kalman_filter_" name

def KALMAN_FILTER_BASENAME (KALMAN_NAME : String) : String :=
  KALMAN_FILTER_BASENAME_HELPER KALMAN_NAME

def KALMAN_BASENAME_HELPER (basename : String) : String :=
  __CONCAT basename "_"

def KALMAN_BUFFER_NAME (KALMAN_NAME element : String) : String :=
  KALMAN_BASENAME_HELPER (KALMAN_FILTER_BASENAME KALMAN_NAME) ++ element ++ "_buffer"

def KALMAN_FUNCTION_NAME (KALMAN_NAME fname : String) : String :=
  KALMAN_BASENAME_HELPER (KALMAN_FILTER_BASENAME KALMAN_NAME) ++ fname

def KALMAN_STRUCT_NAME (KALMAN_NAME : String) : String :=
  KALMAN_FILTER_BASENAME KALMAN_NAME

/-- The logical element tags whose identifiers the factory generates:
the six matrix buffers, the aggregate structure and the init function. -/
inductive SymbolTag where
  | A | P | x | B | u | Q | aggregate | initializer
deriving DecidableEq

/-- The identifier the factory generates for a given instance name and tag:
buffers via `KALMAN_BUFFER_NAME` (lines 135-137, 150-152), the aggregate
via `KALMAN_STRUCT_NAME` (line 181), the init function via
`KALMAN_FUNCTION_NAME(init)` (line 188). -/
def symbolName (KALMAN_NAME : String) : SymbolTag → String
  | .A => KALMAN_BUFFER_NAME KALMAN_NAME "A"
  | .P => KALMAN_BUFFER_NAME KALMAN_NAME "P"
  | .x => KALMAN_BUFFER_NAME KALMAN_NAME "x"
  | .B => KALMAN_BUFFER_NAME KALMAN_NAME "B"
  | .u => KALMAN_BUFFER_NAME KALMAN_NAME "u"
  | .Q => KALMAN_BUFFER_NAME KALMAN_NAME "Q"
  | .aggregate => KALMAN_STRUCT_NAME KALMAN_NAME
  | .initializer => KALMAN_FUNCTION_NAME KALMAN_NAME "init"

/-- One `static matrix_data_t <name>[<length>];` declaration: the generated
identifier and the element count the declarator computes. -/
structure BufferDecl where
  name : String
  length : Int
deriving DecidableEq

/-- A buffer argument of the init call: either a declared buffer's
identifier, or the `((matrix_data_t*)0)` null sentinel of lines 166-172. -/
inductive BufferRef where
  | buffer (name : String)
  | nullPointer
deriving DecidableEq

/-- The single statement of the generated init function (line 190): the
call `kalman_filter_initialize(&<struct>, NUM_STATES, NUM_INPUTS, A, x, B,
u, P, Q)`. The fields record the call's positional arguments in order. -/
structure InitCall where
  callee : String
  filterPtr : String
  numStates : PPValue
  numInputs : PPValue
  A : BufferRef
  x : BufferRef
  B : BufferRef
  u : BufferRef
  P : BufferRef
  Q : BufferRef
deriving DecidableEq

/-- The generated init function (lines 188-191): its identifier, its
(empty) parameter list, and its body as the list of calls it performs. -/
structure InitFunction where
  name : String
  params : List String
  body : List InitCall
deriving DecidableEq

/-- Everything one successful inclusion of the factory header declares. -/
structure GeneratedInstance where
  bufferA : BufferDecl
  bufferP : BufferDecl
  bufferx : BufferDecl
  bufferB : Option BufferDecl
  bufferQ : Option BufferDecl
  bufferu : Option BufferDecl
  filterStruct : String
  initFunction : InitFunction
deriving DecidableEq

/-- The emitter part of the header (lines 135-191), reached only after the
dimension checks pass. Faithful to the source, including the declarator of
the u buffer on line 161, which sizes it as
`__KALMAN_x_ROWS * __KALMAN_u_COLS` (numStates, not numInputs). -/
def emitInstance (name : String) (S I : PPValue) : GeneratedInstance where
  bufferA := ⟨KALMAN_BUFFER_NAME name "A",
    __KALMAN_A_ROWS S.condValue * __KALMAN_A_COLS S.condValue⟩
  bufferP := ⟨KALMAN_BUFFER_NAME name "P",
    __KALMAN_P_ROWS S.condValue * __KALMAN_P_COLS S.condValue⟩
  bufferx := ⟨KALMAN_BUFFER_NAME name "x",
    __KALMAN_x_ROWS S.condValue * __KALMAN_x_COLS⟩
  bufferB := if I.condValue > 0 then
      some ⟨KALMAN_BUFFER_NAME name "B",
        __KALMAN_B_ROWS S.condValue * __KALMAN_B_COLS I.condValue⟩
    else none
  bufferQ := if I.condValue > 0 then
      some ⟨KALMAN_BUFFER_NAME name "Q",
        __KALMAN_Q_ROWS I.condValue * __KALMAN_Q_COLS I.condValue⟩
    else none
  bufferu := if I.condValue > 0 then
      some ⟨KALMAN_BUFFER_NAME name "u",
        __KALMAN_x_ROWS S.condValue * __KALMAN_u_COLS⟩
    else none
  filterStruct := KALMAN_STRUCT_NAME name
  initFunction :=
    ⟨KALMAN_FUNCTION_NAME name "init", [],
      [⟨"kalman_filter_initialize", KALMAN_STRUCT_NAME name, S, I,
        .buffer (KALMAN_BUFFER_NAME name "A"),
        .buffer (KALMAN_BUFFER_NAME name "x"),
        if I.condValue > 0 then .buffer (KALMAN_BUFFER_NAME name "B")
          else .nullPointer,
        if I.condValue > 0 then .buffer (KALMAN_BUFFER_NAME name "u")
          else .nullPointer,
        .buffer (KALMAN_BUFFER_NAME name "P"),
        if I.condValue > 0 then .buffer (KALMAN_BUFFER_NAME name "Q")
          else .nullPointer⟩]⟩

/-- One inclusion of the factory header: the parameter checks of lines
64-78 in source order, then the emitter. An `#error` is build-fatal, so a
failed check yields no artifacts at all. -/
def generate (cfg : FactoryConfig) : Except FactoryError GeneratedInstance :=
  match cfg.KALMAN_NAME with
  | none => .error .nameUndefined
  | some name =>
    match cfg.KALMAN_NUM_STATES with
    | none => .error .numStatesUndefined
    | some S =>
      if S.condValue ≤ 0 then .error .numStatesNotPositive
      else
        match cfg.KALMAN_NUM_INPUTS with
        | none => .error .numInputsUndefined
        | some I =>
          if I.condValue < 0 then .error .numInputsNegative
          else .ok (emitInstance name S I)

/-! ## Shared helper lemmas -/

theorem sdata_append (a b : String) : (a ++ b).data = a.data ++ b.data := rfl

theorem string_append_assoc (a b c : String) : a ++ b ++ c = a ++ (b ++ c) :=
  String.ext (List.append_assoc a.data b.data c.data)

/-- The fixed tail each tag contributes to its generated identifier, after
the instance name: `<sep><elem>_buffer` for buffers, nothing for the
aggregate, `<sep>init` for the init function. -/
def tagSuffix : SymbolTag → String
  | .A => "_A_buffer"
  | .P => "_P_buffer"
  | .x => "_x_buffer"
  | .B => "_B_buffer"
  | .u => "_u_buffer"
  | .Q => "_Q_buffer"
  | .aggregate => ""
  | .initializer => "_init"

theorem symbolName_decomp (n : String) (t : SymbolTag) :
    symbolName n t = "kalman_filter_" ++ (n ++ tagSuffix t) := by
  cases t <;>
    simp only [symbolName, tagSuffix, KALMAN_BUFFER_NAME, KALMAN_FUNCTION_NAME,
      KALMAN_STRUCT_NAME, KALMAN_BASENAME_HELPER, KALMAN_FILTER_BASENAME,
      KALMAN_FILTER_BASENAME_HELPER, __CONCAT, string_append_assoc] <;>
    exact String.ext (by simp [sdata_append])

/-! ## Claim theorems -/

/-- C1: per the §3 shape table, an instance with numStates=4, numInputs=2
should get buffers A=16, P=16, x=4, B=8, u=2, Q=4 elements. The code
matches for A, P, x, B, Q but declares u with
`__KALMAN_x_ROWS * __KALMAN_u_COLS` = numStates = 4 elements
(kalman_factory_filter.h line 161), not the numInputs = 2 the table and
the code's own (unused) `__KALMAN_u_ROWS` constant prescribe. -/
theorem C1_u_buffer_sized_by_numStates :
    ∃ inst,
      generate ⟨some "imu", some (.int 4), some (.int 2)⟩ = .ok inst ∧
      inst.bufferA.length = 16 ∧ inst.bufferP.length = 16 ∧
      inst.bufferx.length = 4 ∧
      inst.bufferB.map BufferDecl.length = some 8 ∧
      inst.bufferQ.map BufferDecl.length = some 4 ∧
      inst.bufferu.map BufferDecl.length = some 4 ∧
      inst.bufferu.map BufferDecl.length ≠ some 2 :=
  ⟨emitInstance "imu" (.int 4) (.int 2), rfl, rfl, rfl, rfl, by decide,
    by decide, by decide, by decide⟩

/-- C2: whenever numStates ≤ 0 or numInputs < 0 the inclusion stops at an
`#error` (lines 70-71 and 76-77), so no artifact of any kind is produced:
the result is an error and carries no generated instance. -/
theorem C2_invalid_dimension_rejected (name : String) (S I : Int)
    (h : S ≤ 0 ∨ I < 0) :
    ∃ e, generate ⟨some name, some (.int S), some (.int I)⟩ = .error e := by
  by_cases hS : S ≤ 0
  · exact ⟨.numStatesNotPositive, by simp [generate, PPValue.condValue, hS]⟩
  · rcases h with h | h
    · exact absurd h hS
    · exact ⟨.numInputsNegative, by simp [generate, PPValue.condValue, hS, h]⟩

theorem C2_witness :
    ((-1 : Int) ≤ 0 ∨ (5 : Int) < 0) ∧
      ∃ e, generate ⟨some "acc", some (.int (-1)), some (.int 5)⟩ =
        .error e :=
  ⟨Or.inl (by decide),
    C2_invalid_dimension_rejected "acc" (-1) 5 (Or.inl (by decide))⟩

/-- C3: if any of the three parameters is absent from the macro
environment, the corresponding `#ifndef ... #error` (lines 64-78) fires
and the inclusion fails. -/
theorem C3_missing_parameter_rejected (cfg : FactoryConfig)
    (h : cfg.KALMAN_NAME = none ∨ cfg.KALMAN_NUM_STATES = none ∨
      cfg.KALMAN_NUM_INPUTS = none) :
    ∃ e, generate cfg = .error e := by
  obtain ⟨n, s, i⟩ := cfg
  cases n with
  | none => exact ⟨.nameUndefined, rfl⟩
  | some name =>
    cases s with
    | none => exact ⟨.numStatesUndefined, rfl⟩
    | some S =>
      cases i with
      | none =>
        by_cases hS : S.condValue ≤ 0
        · exact ⟨.numStatesNotPositive, by simp [generate, hS]⟩
        · exact ⟨.numInputsUndefined, by simp [generate, hS]⟩
      | some I => simp at h

theorem C3_witness :
    ((⟨none, some (.int 3), some (.int 0)⟩ : FactoryConfig).KALMAN_NAME = none ∨
      (⟨none, some (.int 3), some (.int 0)⟩ : FactoryConfig).KALMAN_NUM_STATES = none ∨
      (⟨none, some (.int 3), some (.int 0)⟩ : FactoryConfig).KALMAN_NUM_INPUTS = none) ∧
      ∃ e, generate ⟨none, some (.int 3), some (.int 0)⟩ = .error e :=
  ⟨Or.inl rfl,
    C3_missing_parameter_rejected ⟨none, some (.int 3), some (.int 0)⟩ (Or.inl rfl)⟩

/-- C4: with numInputs = 0 the `#if KALMAN_NUM_INPUTS > 0` branch of lines
148-174 is not taken: no B, Q or u buffer is declared, the three
references are bound to the `((matrix_data_t*)0)` sentinel, and the
generated init function passes that sentinel in the B, u and Q argument
positions of its delegation call. -/
theorem C4_zero_inputs_sentinel (name : String) (S : Int) (hS : 0 < S) :
    ∃ inst, generate ⟨some name, some (.int S), some (.int 0)⟩ = .ok inst ∧
      inst.bufferB = none ∧ inst.bufferQ = none ∧ inst.bufferu = none ∧
      ∃ call, inst.initFunction.body = [call] ∧
        call.B = .nullPointer ∧ call.u = .nullPointer ∧
        call.Q = .nullPointer := by
  have hS' : ¬ (S ≤ 0) := not_le.mpr hS
  exact ⟨emitInstance name (.int S) (.int 0),
    by simp [generate, PPValue.condValue, hS'],
    rfl, rfl, rfl, ⟨_, rfl, rfl, rfl, rfl⟩⟩

theorem C4_witness :
    (0 : Int) < 4 ∧
      ∃ inst, generate ⟨some "imu", some (.int 4), some (.int 0)⟩ = .ok inst ∧
        inst.bufferB = none ∧ inst.bufferQ = none ∧ inst.bufferu = none ∧
        ∃ call, inst.initFunction.body = [call] ∧
          call.B = .nullPointer ∧ call.u = .nullPointer ∧
          call.Q = .nullPointer :=
  ⟨by decide, C4_zero_inputs_sentinel "imu" 4 (by decide)⟩

/-- C5: every generated identifier is the concatenation of a fixed shared
prefix, the instance name, a fixed shared separator and a fixed per-tag
rendering; since `symbolName` is a function, the same (name, tag) pair
always yields the same identifier. The realizing constants are prefix
"kalman_filter_" and the empty separator, with each tag's rendering
carrying its own "_" joiner, because the aggregate identifier
(`KALMAN_STRUCT_NAME`, line 125) is the bare basename with no tag text
appended at all. -/
theorem C5_symbol_scheme :
    ∃ pre sep : String, ∀ (n : String) (t : SymbolTag),
      symbolName n t = pre ++ n ++ sep ++ tagSuffix t := by
  refine ⟨"kalman_filter_", "", fun n t => ?_⟩
  rw [symbolName_decomp]
  exact String.ext (by simp [sdata_append])

theorem no_sep_names_append_inj (a c b d : List Char)
    (hab : a ++ b = c ++ d) (ha : '_' ∉ a) (hc : '_' ∉ c)
    (hb : b = [] ∨ b.head? = some '_') (hd : d = [] ∨ d.head? = some '_') :
    a = c := by
  rcases List.append_eq_append_iff.mp hab with ⟨m, hm, hbd⟩ | ⟨m, hm, hbd⟩
  · cases m with
    | nil => simp [hm]
    | cons ch t =>
      exfalso
      have hch : ch = '_' := by
        rcases hb with hb | hb
        · rw [hbd] at hb; exact absurd hb (List.cons_ne_nil _ _)
        · rw [hbd] at hb; simpa using hb
      apply hc
      rw [hm, hch]
      exact List.mem_append.mpr (Or.inr (List.mem_cons_self _ _))
  · cases m with
    | nil => simp [hm]
    | cons ch t =>
      exfalso
      have hch : ch = '_' := by
        rcases hd with hd | hd
        · rw [hbd] at hd; exact absurd hd (List.cons_ne_nil _ _)
        · rw [hbd] at hd; simpa using hd
      apply ha
      rw [hm, hch]
      exact List.mem_append.mpr (Or.inr (List.mem_cons_self _ _))

theorem tagSuffix_shape (t : SymbolTag) :
    (tagSuffix t).data = [] ∨ (tagSuffix t).data.head? = some '_' := by
  cases t <;> first | exact Or.inl rfl | exact Or.inr rfl

/-- C6 counterexample: the names "a" and "a_A_buffer" are distinct, yet
the A-buffer identifier of "a" and the aggregate identifier of
"a_A_buffer" are both kalman_filter_a_A_buffer, so their symbol families
are not disjoint. -/
theorem C6_counterexample :
    "a" ≠ "a_A_buffer" ∧
      symbolName "a" SymbolTag.A =
        symbolName "a_A_buffer" SymbolTag.aggregate :=
  ⟨by decide, by decide⟩

/-- C6 (amended): for two instances whose names are distinct and neither
of which contains the reserved separator character '_', the generated
symbol families are fully disjoint: no identifier generated for one name
equals any identifier generated for the other. -/
theorem C6_disjoint_for_separator_free_names (n1 n2 : String)
    (hne : n1 ≠ n2) (h1 : '_' ∉ n1.data) (h2 : '_' ∉ n2.data)
    (t1 t2 : SymbolTag) :
    symbolName n1 t1 ≠ symbolName n2 t2 := by
  intro h
  rw [symbolName_decomp, symbolName_decomp] at h
  have hdata := congrArg String.data h
  simp only [sdata_append] at hdata
  have hpre := List.append_cancel_left hdata
  exact hne (String.ext
    (no_sep_names_append_inj n1.data n2.data (tagSuffix t1).data
      (tagSuffix t2).data hpre h1 h2 (tagSuffix_shape t1) (tagSuffix_shape t2)))

theorem C6_witness :
    (("alpha" : String) ≠ "beta" ∧ '_' ∉ "alpha".data ∧ '_' ∉ "beta".data) ∧
      symbolName "alpha" SymbolTag.x ≠ symbolName "beta" SymbolTag.x :=
  ⟨⟨by decide, by decide, by decide⟩,
    C6_disjoint_for_separator_free_names "alpha" "beta" (by decide)
      (by decide) (by decide) SymbolTag.x SymbolTag.x⟩

/-- C7: the generated init function has an empty parameter list and its
body is exactly the one call of line 190, passing the aggregate, the two
dimension parameters and the six buffer references in the source order
(&struct, NUM_STATES, NUM_INPUTS, A, x, B, u, P, Q), with the sentinel in
the B, u, Q positions when numInputs is not positive. -/
theorem C7_initializer_single_delegation (name : String) (S I : PPValue)
    (inst : GeneratedInstance)
    (h : generate ⟨some name, some S, some I⟩ = .ok inst) :
    inst.initFunction.params = [] ∧
      inst.initFunction.body =
        [⟨"kalman_filter_initialize", inst.filterStruct, S, I,
          .buffer (KALMAN_BUFFER_NAME name "A"),
          .buffer (KALMAN_BUFFER_NAME name "x"),
          if I.condValue > 0 then .buffer (KALMAN_BUFFER_NAME name "B")
            else .nullPointer,
          if I.condValue > 0 then .buffer (KALMAN_BUFFER_NAME name "u")
            else .nullPointer,
          .buffer (KALMAN_BUFFER_NAME name "P"),
          if I.condValue > 0 then .buffer (KALMAN_BUFFER_NAME name "Q")
            else .nullPointer⟩] := by
  by_cases hS : S.condValue ≤ 0
  · simp [generate, hS] at h
  · by_cases hI : I.condValue < 0
    · simp [generate, hS, hI] at h
    · simp [generate, hS, hI] at h
      subst h
      exact ⟨rfl, rfl⟩

theorem C7_witness :
    generate ⟨some "gyro", some (.int 3), some (.int 1)⟩ =
        .ok (emitInstance "gyro" (.int 3) (.int 1)) ∧
      ((emitInstance "gyro" (.int 3) (.int 1)).initFunction.params = [] ∧
        (emitInstance "gyro" (.int 3) (.int 1)).initFunction.body =
          [⟨"kalman_filter_initialize",
            (emitInstance "gyro" (.int 3) (.int 1)).filterStruct,
            .int 3, .int 1,
            .buffer (KALMAN_BUFFER_NAME "gyro" "A"),
            .buffer (KALMAN_BUFFER_NAME "gyro" "x"),
            .buffer (KALMAN_BUFFER_NAME "gyro" "B"),
            .buffer (KALMAN_BUFFER_NAME "gyro" "u"),
            .buffer (KALMAN_BUFFER_NAME "gyro" "P"),
            .buffer (KALMAN_BUFFER_NAME "gyro" "Q")⟩]) :=
  ⟨rfl, C7_initializer_single_delegation "gyro" (.int 3) (.int 1) _ rfl⟩

/-- C8: a rejected dimension produces the `#error` whose message text
starts with the name of the offending parameter followed by the violated
constraint (lines 71 and 77). -/
theorem C8_error_message_names_parameter (name : String) (S I : Int)
    (h : S ≤ 0 ∨ I < 0) :
    ∃ e pname ctext,
      generate ⟨some name, some (.int S), some (.int I)⟩ = .error e ∧
      e.message = pname ++ ctext ∧
      ((S ≤ 0 ∧ pname = "KALMAN_NUM_STATES" ∧
        ctext = " must be a positive integer") ∨
       (I < 0 ∧ pname = "KALMAN_NUM_INPUTS" ∧
        ctext = " must be a positive integer or zero if no inputs are used")) := by
  by_cases hS : S ≤ 0
  · exact ⟨.numStatesNotPositive, "KALMAN_NUM_STATES",
      " must be a positive integer",
      by simp [generate, PPValue.condValue, hS], by decide,
      Or.inl ⟨hS, rfl, rfl⟩⟩
  · rcases h with h | h
    · exact absurd h hS
    · exact ⟨.numInputsNegative, "KALMAN_NUM_INPUTS",
        " must be a positive integer or zero if no inputs are used",
        by simp [generate, PPValue.condValue, hS, h], by decide,
        Or.inr ⟨h, rfl, rfl⟩⟩

theorem C8_witness :
    ((-3 : Int) ≤ 0 ∨ (7 : Int) < 0) ∧
      ∃ e pname ctext,
        generate ⟨some "imu", some (.int (-3)), some (.int 7)⟩ = .error e ∧
        e.message = pname ++ ctext ∧
        (((-3 : Int) ≤ 0 ∧ pname = "KALMAN_NUM_STATES" ∧
          ctext = " must be a positive integer") ∨
         ((7 : Int) < 0 ∧ pname = "KALMAN_NUM_INPUTS" ∧
          ctext = " must be a positive integer or zero if no inputs are used")) :=
  ⟨Or.inl (by decide),
    C8_error_message_names_parameter "imu" (-3) 7 (Or.inl (by decide))⟩

/-- C9: a non-integer token evaluates as 0 in the `#if`/`#elif`
comparisons (C11 6.10.1p4). Supplied as numStates it trips the
`KALMAN_NUM_STATES <= 0` check and gets the positive-integer error;
supplied as numInputs it passes the `< 0` check, the
`#if KALMAN_NUM_INPUTS > 0` branch is skipped, and a zero-input instance
with sentinel B, Q, u is generated silently. -/
theorem C9_nonint_token_dimension (name s t : String) (S : Int)
    (hS : 0 < S) :
    generate ⟨some name, some (.token s), some (.token t)⟩ =
        .error .numStatesNotPositive ∧
      ∃ inst,
        generate ⟨some name, some (.int S), some (.token t)⟩ = .ok inst ∧
        inst.bufferB = none ∧ inst.bufferQ = none ∧ inst.bufferu = none ∧
        ∃ call, inst.initFunction.body = [call] ∧ call.B = .nullPointer ∧
          call.u = .nullPointer ∧ call.Q = .nullPointer := by
  have hS' : ¬ (S ≤ 0) := not_le.mpr hS
  refine ⟨rfl, ⟨emitInstance name (.int S) (.token t), ?_, rfl, rfl, rfl,
    ⟨_, rfl, rfl, rfl, rfl⟩⟩⟩
  simp [generate, PPValue.condValue, hS']

theorem C9_witness :
    (0 : Int) < 4 ∧
      (generate ⟨some "imu", some (.token "FOO"), some (.token "BAR")⟩ =
          .error .numStatesNotPositive ∧
        ∃ inst,
          generate ⟨some "imu", some (.int 4), some (.token "BAR")⟩ =
            .ok inst ∧
          inst.bufferB = none ∧ inst.bufferQ = none ∧ inst.bufferu = none ∧
          ∃ call, inst.initFunction.body = [call] ∧
            call.B = .nullPointer ∧ call.u = .nullPointer ∧
            call.Q = .nullPointer) :=
  ⟨by decide, C9_nonint_token_dimension "imu" "FOO" "BAR" 4 (by decide)⟩

/-- C10: the validator accepts every numStates ≥ 1 with numInputs ≥ 0 (no
upper limit exists anywhere in lines 64-78), and each declared buffer's
element count is exactly the raw product of the row and column constants
appearing in its declarator (lines 140-161), with no overflow or
size-limit check; for the u buffer the declarator's row constant is
`__KALMAN_x_ROWS` (see line 161). -/
theorem C10_no_upper_bound (name : String) (S I : Int)
    (hS : 1 ≤ S) (hI : 0 ≤ I) :
    ∃ inst, generate ⟨some name, some (.int S), some (.int I)⟩ = .ok inst ∧
      inst.bufferA.length = __KALMAN_A_ROWS S * __KALMAN_A_COLS S ∧
      inst.bufferP.length = __KALMAN_P_ROWS S * __KALMAN_P_COLS S ∧
      inst.bufferx.length = __KALMAN_x_ROWS S * __KALMAN_x_COLS ∧
      (0 < I →
        inst.bufferB = some ⟨KALMAN_BUFFER_NAME name "B",
          __KALMAN_B_ROWS S * __KALMAN_B_COLS I⟩ ∧
        inst.bufferQ = some ⟨KALMAN_BUFFER_NAME name "Q",
          __KALMAN_Q_ROWS I * __KALMAN_Q_COLS I⟩ ∧
        inst.bufferu = some ⟨KALMAN_BUFFER_NAME name "u",
          __KALMAN_x_ROWS S * __KALMAN_u_COLS⟩) := by
  have hS' : ¬ (S ≤ 0) := not_le.mpr (by omega)
  have hI' : ¬ (I < 0) := not_lt.mpr hI
  refine ⟨emitInstance name (.int S) (.int I), ?_, rfl, rfl, rfl,
    fun hpos => ?_⟩
  · simp [generate, PPValue.condValue, hS', hI']
  · simp [emitInstance, PPValue.condValue, hpos]

theorem C10_witness :
    ((1 : Int) ≤ 1000000000 ∧ (0 : Int) ≤ 999999999) ∧
      ∃ inst,
        generate ⟨some "big", some (.int 1000000000),
            some (.int 999999999)⟩ = .ok inst ∧
        inst.bufferA.length =
          __KALMAN_A_ROWS 1000000000 * __KALMAN_A_COLS 1000000000 ∧
        inst.bufferP.length =
          __KALMAN_P_ROWS 1000000000 * __KALMAN_P_COLS 1000000000 ∧
        inst.bufferx.length =
          __KALMAN_x_ROWS 1000000000 * __KALMAN_x_COLS ∧
        (0 < (999999999 : Int) →
          inst.bufferB = some ⟨KALMAN_BUFFER_NAME "big" "B",
            __KALMAN_B_ROWS 1000000000 * __KALMAN_B_COLS 999999999⟩ ∧
          inst.bufferQ = some ⟨KALMAN_BUFFER_NAME "big" "Q",
            __KALMAN_Q_ROWS 999999999 * __KALMAN_Q_COLS 999999999⟩ ∧
          inst.bufferu = some ⟨KALMAN_BUFFER_NAME "big" "u",
            __KALMAN_x_ROWS 1000000000 * __KALMAN_u_COLS⟩) :=
  ⟨⟨by decide, by decide⟩,
    C10_no_upper_bound "big" 1000000000 999999999 (by decide) (by decide)⟩
